import Mathlib

set_option maxHeartbeats 1000000
set_option linter.unusedVariables false

/-!
Shallow embedding of the SIMS server (server.js) of the student-record
management webapp: the student record data model, the persisted JSON file
(students.json) as an optional list of records, the seeding helper
ensureDataFile, and the four HTTP handlers GET /students, POST /students,
DELETE /students/:id and POST /chat, each modelled as a pure function from
the file state (and, where the handler reads them, the bundled seed and the
configured API key) to a response value and the new file state.
-/

/-- A student record as carried in a request body and in students.json.
The seven specified fields are strings; `extra` models any further JSON
properties of the payload object, which the server never strips (it pushes
and echoes the payload verbatim, server.js lines 203-205). -/
structure Student where
  studentId : String
  fullName : String
  gender : String
  gmail : String
  program : String
  yearLevel : String
  university : String
  extra : List (String × String)
deriving Repr, DecidableEq

/-- Outcome of POST /students (server.js lines 159-209): 400 with an error
message, 409 with an error message, or 201 with the stored record. The 500
catch-all for I/O failure is out of scope of the embedding. -/
inductive PostResult where
  | badRequest (error : String)
  | conflict (error : String)
  | created (body : Student)
deriving Repr, DecidableEq

/-- Outcome of DELETE /students/:id (server.js lines 212-225): 404 with an
error message, or 200 with the removed record. -/
inductive DeleteResult where
  | notFound (error : String)
  | ok (removed : Student)
deriving Repr, DecidableEq

/-- Outcome of POST /chat (server.js lines 228-289) up to the point where
the handler hands off to the external completion service: 400 or 500 with
an error message, or `callUpstream` when the request reaches the axios call
(whose network behaviour is outside the embedding). -/
inductive ChatOutcome where
  | badRequest (error : String)
  | serverError (error : String)
  | callUpstream
deriving Repr, DecidableEq

/-- Models the presence test of the required-field loop, server.js line 174:
a field fails the test exactly when its string trims to empty, i.e. when all
of its characters are whitespace. -/
def isBlank (s : String) : Bool :=
  s.data.all Char.isWhitespace

/-- One character of the local part of the Gmail pattern, the character
class of the regex at server.js line 179. -/
def isGmailLocalChar (c : Char) : Bool :=
  c.isAlpha || c.isDigit || c == '.' || c == '_' || c == '%' ||
    c == '+' || c == '-'

/-- The case-insensitive anchored Gmail test of server.js line 179: after
lowercasing, the string is a non-empty run of allowed local characters
followed by the literal suffix of an at-sign and the Gmail domain. -/
def gmailOk (s : String) : Bool :=
  let cs := s.data.map Char.toLower
  let n := cs.length
  decide (11 ≤ n) && (cs.drop (n - 10) == "@gmail.com".data) &&
    (cs.take (n - 10)).all isGmailLocalChar

/-- The all-digits test of server.js line 184: one or more ASCII digits. -/
def isNumYear (s : String) : Bool :=
  !s.data.isEmpty && s.data.all Char.isDigit

/-- ASCII subset of the whitespace class of the ordinal-year regex. -/
def isJsSpace (c : Char) : Bool :=
  c == ' ' || c == '\t' || c == '\n' || c == '\r' || c == '\x0B' ||
    c == '\x0C'

/-- Tail of the ordinal-year pattern: one or more whitespace characters and
then the lowercased year word, at the end of the string. -/
def ordTail (rest : List Char) : Bool :=
  let p := rest.span isJsSpace
  !p.1.isEmpty && (p.2 == "year".data)

/-- The case-insensitive ordinal test of server.js line 183: a single digit,
an ordinal suffix, whitespace, and the year word. -/
def isOrdinalYear (s : String) : Bool :=
  match s.data.map Char.toLower with
  | d :: c1 :: c2 :: rest =>
    d.isDigit &&
      ((c1 == 's' && c2 == 't') || (c1 == 'n' && c2 == 'd') ||
        (c1 == 'r' && c2 == 'd') || (c1 == 't' && c2 == 'h')) &&
      ordTail rest
  | _ => false

/-- The anchored student-id test of server.js line 191: one to four
uppercase letters, a dash, exactly three digits, a dash, exactly five
digits. The letter and digit runs are taken maximally, which agrees with
the regex because each run is delimited by a dash or the end of string. -/
def studentIdOk (s : String) : Bool :=
  let p1 := s.data.span Char.isUpper
  decide (1 ≤ p1.1.length) && decide (p1.1.length ≤ 4) &&
    (match p1.2 with
     | '-' :: r2 =>
       let p2 := r2.span Char.isDigit
       decide (p2.1.length = 3) &&
         (match p2.2 with
          | '-' :: r4 => decide (r4.length = 5) && r4.all Char.isDigit
          | _ => false)
     | _ => false)

/-- The seeding helper of server.js lines 109-137: the persisted file is an
optional list of records (none models an absent file); an absent file and a
present-but-empty collection are both replaced wholesale by the bundled
seed collection, any other content is kept. Returns the collection the
file holds afterwards, which is also what a read returns. -/
def ensureDataFile (seed : List Student) : Option (List Student) → List Student
  | none => seed
  | some cur => if cur.isEmpty then seed else cur

/-- GET /students, server.js lines 149-156: read the collection (running
the seeding helper first, as readStudents does) and return it; the file
afterwards holds exactly that collection. -/
def getStudents (seed : List Student) (file : Option (List Student)) :
    List Student × Option (List Student) :=
  let students := ensureDataFile seed file
  (students, some students)

/-- POST /students, server.js lines 159-209: the required-field loop in
source order, then the Gmail, year-level and student-id format tests, then
the uniqueness check against the collection as read, then push and write.
The pair is the response and the file state after the request. -/
def postStudents (seed : List Student) (file : Option (List Student))
    (payload : Student) : PostResult × Option (List Student) :=
  if isBlank payload.studentId then
    (.badRequest "Missing field: studentId", file)
  else if isBlank payload.fullName then
    (.badRequest "Missing field: fullName", file)
  else if isBlank payload.gender then
    (.badRequest "Missing field: gender", file)
  else if isBlank payload.gmail then
    (.badRequest "Missing field: gmail", file)
  else if isBlank payload.program then
    (.badRequest "Missing field: program", file)
  else if isBlank payload.yearLevel then
    (.badRequest "Missing field: yearLevel", file)
  else if isBlank payload.university then
    (.badRequest "Missing field: university", file)
  else if !gmailOk payload.gmail then
    (.badRequest "Email must be a valid Gmail address.", file)
  else if !(isOrdinalYear payload.yearLevel || isNumYear payload.yearLevel) then
    (.badRequest "Year Level must be like \"1st Year\" or a number.", file)
  else if !studentIdOk payload.studentId then
    (.badRequest "Student ID format invalid (e.g., BP-113-00001).", file)
  else
    let students := ensureDataFile seed file
    if students.any (fun s => s.studentId == payload.studentId) then
      (.conflict "Student ID already exists.", some students)
    else
      (.created payload, some (students ++ [payload]))

/-- The findIndex-plus-splice step of server.js lines 216-219: remove the
first record whose studentId matches and return it together with the
remaining records in their original order; none when no record matches. -/
def spliceOutById (id : String) : List Student → Option (Student × List Student)
  | [] => none
  | s :: rest =>
    if s.studentId == id then some (s, rest)
    else (spliceOutById id rest).map (fun pr => (pr.1, s :: pr.2))

/-- DELETE /students/:id, server.js lines 212-225: read the collection
(seeding first), find the first matching record; 404 when there is none,
otherwise splice it out, write the reduced collection and return it. -/
def deleteStudent (seed : List Student) (file : Option (List Student))
    (id : String) : DeleteResult × Option (List Student) :=
  let students := ensureDataFile seed file
  match spliceOutById id students with
  | none => (.notFound "Not found", some students)
  | some pr => (.ok pr.1, some pr.2)

/-- POST /chat, server.js lines 228-246, up to the upstream call: a missing
or empty message is rejected before any file access; otherwise the
collection is read (seeding first), an empty collection yields 400, a
missing API key yields 500, and otherwise the handler reaches the external
call. The message is an optional string, none modelling an absent field. -/
def postChat (seed : List Student) (apiKey : String)
    (file : Option (List Student)) (message : Option String) :
    ChatOutcome × Option (List Student) :=
  match message with
  | none => (.badRequest "Message is required.", file)
  | some m =>
    if m == "" then (.badRequest "Message is required.", file)
    else
      let students := ensureDataFile seed file
      if students.isEmpty then
        (.badRequest "No student data available.", some students)
      else if apiKey == "" then
        (.serverError "LLM API key not configured on the server.", some students)
      else
        (.callUpstream, some students)

/-!
Spec-side definitions: transcriptions of the validation table of spec
section 4.2 and of related spec wording, used to state the claims that
compare the spec's rules with the server's behaviour. The studentId,
gmail and yearLevel table rows give exactly the regexes the server uses,
so those rows are transcribed by the same pattern functions.
-/

/-- Spec rule for studentId: the same anchored pattern the code tests. -/
def spec_studentIdRule (s : String) : Bool := studentIdOk s

/-- Spec rule for fullName: letters and spaces only, length at least two
(the table row for fullName; the server never tests this pattern). -/
def spec_fullNameRule (s : String) : Bool :=
  decide (2 ≤ s.data.length) && s.data.all (fun c => c.isAlpha || c == ' ')

/-- Spec rule for gmail: the same case-insensitive pattern the code tests. -/
def spec_gmailRule (s : String) : Bool := gmailOk s

/-- Spec rule for program: non-empty after trimming whitespace. -/
def spec_programRule (s : String) : Bool := !isBlank s

/-- Spec rule for university: non-empty after trimming whitespace. -/
def spec_universityRule (s : String) : Bool := !isBlank s

/-- Spec rule for yearLevel: all digits, or the ordinal form, exactly the
patterns of the table row. -/
def spec_yearLevelRule (s : String) : Bool := isNumYear s || isOrdinalYear s

/-- Spec rule for gender: presence only, a non-empty string. -/
def spec_genderRule (s : String) : Bool := !s.isEmpty

/-- All seven field rules of the validation table of spec section 4.2. -/
def spec_validRecord (p : Student) : Bool :=
  spec_studentIdRule p.studentId && spec_fullNameRule p.fullName &&
    spec_gmailRule p.gmail && spec_programRule p.program &&
    spec_universityRule p.university && spec_yearLevelRule p.yearLevel &&
    spec_genderRule p.gender

/-- All seven fields pass the server's required-field loop, i.e. none is
empty or whitespace-only. -/
def allFieldsPresent (p : Student) : Bool :=
  !isBlank p.studentId && !isBlank p.fullName && !isBlank p.gender &&
    !isBlank p.gmail && !isBlank p.program && !isBlank p.yearLevel &&
    !isBlank p.university

/-- The server's validation checks in the order the handler runs them:
the required-field loop over the seven fields in source order, then the
Gmail format, the year-level format and the student-id format. Each entry
pairs the failure condition with the error message the handler sends. -/
def checkSequence : List ((Student → Bool) × String) :=
  [ (fun p => isBlank p.studentId, "Missing field: studentId"),
    (fun p => isBlank p.fullName, "Missing field: fullName"),
    (fun p => isBlank p.gender, "Missing field: gender"),
    (fun p => isBlank p.gmail, "Missing field: gmail"),
    (fun p => isBlank p.program, "Missing field: program"),
    (fun p => isBlank p.yearLevel, "Missing field: yearLevel"),
    (fun p => isBlank p.university, "Missing field: university"),
    (fun p => !gmailOk p.gmail, "Email must be a valid Gmail address."),
    (fun p => !(isOrdinalYear p.yearLevel || isNumYear p.yearLevel),
      "Year Level must be like \"1st Year\" or a number."),
    (fun p => !studentIdOk p.studentId,
      "Student ID format invalid (e.g., BP-113-00001).") ]

/-- The message of the first failing check in the server's order, none
when every check passes. -/
def firstFailingMsg (p : Student) : Option String :=
  (checkSequence.find? (fun c => c.1 p)).map (fun c => c.2)

/-- A bare positive integer written as a digit string: non-empty, all
digits, and of positive value, i.e. some digit is non-zero. Transcribes
the words of the claim about yearLevel acceptance. -/
def spec_positiveIntString (s : String) : Bool :=
  !s.data.isEmpty && s.data.all Char.isDigit &&
    s.data.any (fun c => c != '0')

/-- The yearLevel acceptance rule as the claim words it: a bare positive
integer or the ordinal form. -/
def spec_yearLevelClaimRule (s : String) : Bool :=
  spec_positiveIntString s || isOrdinalYear s

/-- Modelled from the spec: the bundled seed collection data/students.json
is not part of the source tree; the spec describes it as the non-empty
bundled demo dataset and gives one full example record in section 8, used
here as the seed's content. -/
def SEED_STUDENTS : List Student :=
  [⟨"BP-113-00001", "Chelsea Greer", "Female", "chelseagreer@gmail.com",
    "BS Physics", "5th Year", "Caraga State University", []⟩]

/-!
Concrete records used by counterexamples and witnesses.
-/

/-- The example record of spec section 8; passes every rule. -/
def chelsea : Student :=
  ⟨"BP-113-00001", "Chelsea Greer", "Female", "chelseagreer@gmail.com",
    "BS Physics", "5th Year", "Caraga State University", []⟩

/-- A second well-formed record with a different studentId. -/
def dana : Student :=
  ⟨"CS-201-00002", "Dana Reyes", "Male", "danareyes@gmail.com",
    "BS Computer Science", "2", "Caraga State University", []⟩

/-- A record whose fullName is two spaces: it matches the fullName table
pattern of letters and spaces of length at least two, yet the server's
required-field loop rejects it as missing. -/
def blankNameRec : Student :=
  ⟨"BP-113-00001", "  ", "Female", "chelseagreer@gmail.com",
    "BS Physics", "5th Year", "Caraga State University", []⟩

/-- A record whose fullName holds digits, violating the fullName table
pattern while every other field is well-formed. -/
def digitNameRec : Student :=
  ⟨"BD-114-00002", "Bob123", "Male", "bob123@gmail.com",
    "BS Physics", "5th Year", "Caraga State University", []⟩

/-- A record violating both the studentId rule and the gmail rule while
every field is present. -/
def badTwoFieldsRec : Student :=
  ⟨"BAD", "John Doe", "Male", "x@yahoo.com",
    "BS Physics", "1st Year", "Caraga State University", []⟩

/-- A record that duplicates the chelsea studentId but has a blank gmail
field. -/
def dupBlankGmailRec : Student :=
  ⟨"BP-113-00001", "Evil Twin", "Female", "",
    "BS Physics", "5th Year", "Caraga State University", []⟩

/-- A record whose yearLevel is the digit string of zero. -/
def zeroYearRec : Student :=
  ⟨"ZR-900-00009", "Zero Year", "Other", "zeroyear@gmail.com",
    "BS Math", "0", "Caraga State University", []⟩

/-- A record whose yearLevel is a spelled-out word. -/
def fiveYearRec : Student :=
  ⟨"FV-500-00005", "Five Year", "Other", "fiveyear@gmail.com",
    "BS Math", "five", "Caraga State University", []⟩

/-- A well-formed record carrying a property beyond the seven fields. -/
def extraPropsRec : Student :=
  ⟨"EX-300-00003", "Extra Props", "Male", "extraprops@gmail.com",
    "BS Biology", "3rd Year", "Caraga State University",
    [("nickname", "Ex"), ("isAdmin", "true")]⟩

/-- A record sharing the chelsea studentId with a different name, used to
exercise the first-match behaviour of delete. -/
def chelseaTwin : Student :=
  ⟨"BP-113-00001", "Chelsea Clone", "Female", "chelseaclone@gmail.com",
    "BS Physics", "4th Year", "Caraga State University", []⟩

/-!
Helper lemmas about the endpoint functions, shared by several claims.
-/

/-- When no record matches, the splice step finds nothing. -/
lemma spliceOutById_eq_none (id : String) (l : List Student)
    (h : ∀ r ∈ l, r.studentId ≠ id) : spliceOutById id l = none := by
  induction l with
  | nil => rfl
  | cons s rest ih =>
    have hs : (s.studentId == id) = false := by
      simpa using h s (by simp)
    simp [spliceOutById, hs, ih (fun r hr => h r (by simp [hr]))]

/-- When the collection decomposes as a clean prefix, a first matching
record and a tail, the splice step removes exactly that record and keeps
everything else in order. -/
lemma spliceOutById_first_match (id : String) (pre : List Student)
    (r : Student) (post : List Student)
    (hpre : ∀ s ∈ pre, s.studentId ≠ id) (hr : r.studentId = id) :
    spliceOutById id (pre ++ r :: post) = some (r, pre ++ post) := by
  induction pre with
  | nil => simp [spliceOutById, hr]
  | cons s rest ih =>
    have hs : (s.studentId == id) = false := by
      simpa using hpre s (by simp)
    simp [spliceOutById, hs, ih (fun x hx => hpre x (by simp [hx]))]

/-- A successful POST /students: when every field passes the presence
loop, the three format tests pass and no stored record carries the id,
the handler stores and echoes the payload verbatim. -/
lemma postStudents_created (seed : List Student)
    (file : Option (List Student)) (p : Student)
    (hpres : allFieldsPresent p = true)
    (hg : gmailOk p.gmail = true)
    (hy : (isOrdinalYear p.yearLevel || isNumYear p.yearLevel) = true)
    (hid : studentIdOk p.studentId = true)
    (hfresh : ∀ r ∈ ensureDataFile seed file, r.studentId ≠ p.studentId) :
    postStudents seed file p =
      (.created p, some (ensureDataFile seed file ++ [p])) := by
  simp only [allFieldsPresent, Bool.and_eq_true, Bool.not_eq_true'] at hpres
  obtain ⟨⟨⟨⟨⟨⟨h1, h2⟩, h3⟩, h4⟩, h5⟩, h6⟩, h7⟩ := hpres
  have hany : (ensureDataFile seed file).any
      (fun s => s.studentId == p.studentId) = false := by
    rw [Bool.eq_false_iff]
    intro hc
    obtain ⟨x, hx, hfx⟩ := List.any_eq_true.mp hc
    exact hfresh x hx (by simpa using hfx)
  simp [postStudents, h1, h2, h3, h4, h5, h6, h7, hg, hy, hid, hany]

/-- The first failing check of the server's check sequence, written out as
the nested decision the list search performs. -/
lemma firstFailingMsg_eq (p : Student) :
    firstFailingMsg p =
      if isBlank p.studentId then some "Missing field: studentId"
      else if isBlank p.fullName then some "Missing field: fullName"
      else if isBlank p.gender then some "Missing field: gender"
      else if isBlank p.gmail then some "Missing field: gmail"
      else if isBlank p.program then some "Missing field: program"
      else if isBlank p.yearLevel then some "Missing field: yearLevel"
      else if isBlank p.university then some "Missing field: university"
      else if !gmailOk p.gmail then some "Email must be a valid Gmail address."
      else if !(isOrdinalYear p.yearLevel || isNumYear p.yearLevel) then
        some "Year Level must be like \"1st Year\" or a number."
      else if !studentIdOk p.studentId then
        some "Student ID format invalid (e.g., BP-113-00001)."
      else none := by
  simp only [firstFailingMsg, checkSequence, List.find?]
  repeat' split <;> simp_all

/-- When a validation check fails, the handler answers 400 with the
message of the first failing check in its order and leaves the file
untouched. -/
lemma postStudents_firstFail (seed : List Student)
    (file : Option (List Student)) (p : Student) (m : String)
    (h : firstFailingMsg p = some m) :
    postStudents seed file p = (.badRequest m, file) := by
  rw [firstFailingMsg_eq] at h
  split_ifs at h <;>
    first
      | exact Option.noConfusion h
      | (injection h with h; subst h; simp [postStudents, *])

/-- When every validation check passes, each individual check holds. -/
lemma checks_pass_of_none (p : Student) (h : firstFailingMsg p = none) :
    allFieldsPresent p = true ∧ gmailOk p.gmail = true ∧
      (isOrdinalYear p.yearLevel || isNumYear p.yearLevel) = true ∧
      studentIdOk p.studentId = true := by
  rw [firstFailingMsg_eq] at h
  split_ifs at h with h1 h2 h3 h4 h5 h6 h7 h8 h9 h10 <;>
    try exact Option.noConfusion h
  simp only [Bool.not_eq_true, Bool.not_eq_true', Bool.not_eq_false', Bool.not_eq_false] at h1 h2 h3 h4 h5 h6 h7 h8 h9 h10
  exact ⟨by simp [allFieldsPresent, h1, h2, h3, h4, h5, h6, h7], h8, h9, h10⟩

/-- When every validation check passes but a stored record already
carries the id, the handler answers the conflict and keeps the collection
as read. -/
lemma postStudents_conflict (seed : List Student)
    (file : Option (List Student)) (p : Student)
    (hpass : firstFailingMsg p = none)
    (hdup : (ensureDataFile seed file).any
      (fun s => s.studentId == p.studentId) = true) :
    postStudents seed file p =
      (.conflict "Student ID already exists.", some (ensureDataFile seed file)) := by
  obtain ⟨hpres, hg, hy, hid⟩ := checks_pass_of_none p hpass
  simp only [allFieldsPresent, Bool.and_eq_true, Bool.not_eq_true'] at hpres
  obtain ⟨⟨⟨⟨⟨⟨h1, h2⟩, h3⟩, h4⟩, h5⟩, h6⟩, h7⟩ := hpres
  simp [postStudents, h1, h2, h3, h4, h5, h6, h7, hg, hy, hid, hdup]

/-!
Claim C1.
-/

/-- Claim C1 is refuted as stated: the record blankNameRec satisfies all
seven rules of the spec's validation table (its fullName of two spaces
matches the letters-and-spaces pattern) and its studentId matches no
stored record, yet Create answers 400 for the fullName field and stores
nothing, instead of the claimed 201. -/
theorem c1_counterexample :
    spec_validRecord blankNameRec = true ∧
      postStudents [] (some []) blankNameRec =
        (.badRequest "Missing field: fullName", some []) := by
  exact ⟨by decide, by decide⟩

/-- Claim C1 (amended): for every candidate record that satisfies all
seven field validation rules and is non-blank in every field (no field is
empty or whitespace-only), with a studentId matching no stored record,
Create returns 201 with the stored record and a subsequent List returns a
collection containing that record exactly once. -/
theorem c1_create_then_list (seed : List Student)
    (file : Option (List Student)) (p : Student)
    (hv : spec_validRecord p = true)
    (hpres : allFieldsPresent p = true)
    (hfresh : ∀ r ∈ ensureDataFile seed file, r.studentId ≠ p.studentId) :
    postStudents seed file p =
        (.created p, some (ensureDataFile seed file ++ [p])) ∧
      (getStudents seed (some (ensureDataFile seed file ++ [p]))).1.count p = 1 := by
  simp only [spec_validRecord, Bool.and_eq_true] at hv
  obtain ⟨⟨⟨⟨⟨⟨hid, hn⟩, hg⟩, hpr⟩, hu⟩, hy⟩, hgen⟩ := hv
  have hy' : (isOrdinalYear p.yearLevel || isNumYear p.yearLevel) = true := by
    simp only [spec_yearLevelRule] at hy
    rwa [Bool.or_comm] at hy
  refine ⟨postStudents_created seed file p hpres hg hy' hid hfresh, ?_⟩
  have hnotmem : p ∉ ensureDataFile seed file := fun hmem => hfresh p hmem rfl
  have hEnsure : ensureDataFile seed (some (ensureDataFile seed file ++ [p])) =
      ensureDataFile seed file ++ [p] := by
    simp [ensureDataFile]
  simp [getStudents, hEnsure, List.count_append,
    List.count_eq_zero.mpr hnotmem]

/-- Witness for the amended claim C1 at a concrete input: creating the
spec's example record on an empty collection stores it and List then
contains it exactly once. -/
theorem c1_witness :
    postStudents [] (some []) chelsea =
        (.created chelsea, some (ensureDataFile [] (some []) ++ [chelsea])) ∧
      (getStudents [] (some (ensureDataFile [] (some []) ++ [chelsea]))).1.count
        chelsea = 1 :=
  c1_create_then_list [] (some []) chelsea (by decide) (by decide)
    (by intro r hr; simp [ensureDataFile] at hr)

/-!
Claim C2.
-/

/-- Claim C2 is refuted as stated: the record digitNameRec has a non-empty
fullName that violates the letters-and-spaces pattern while every other
field is well-formed, yet Create answers 201 and persists it, instead of
the claimed 400 for fullName: the server never tests the fullName
pattern. -/
theorem c2_counterexample :
    spec_fullNameRule digitNameRec.fullName = false ∧
      allFieldsPresent digitNameRec = true ∧
      postStudents [] (some [chelsea]) digitNameRec =
        (.created digitNameRec, some [chelsea, digitNameRec]) := by
  exact ⟨by decide, by decide, by decide⟩

/-- Claim C2 (amended): the server does not enforce the fullName pattern.
For every candidate whose fullName is non-blank but violates the
letters-and-spaces rule, while the other fields pass the server's checks
and the studentId matches no stored record, Create succeeds with 201 and
persists the record; the fullName pattern is checked only in the browser
code. -/
theorem c2_fullname_not_enforced (seed : List Student)
    (file : Option (List Student)) (p : Student)
    (hname : spec_fullNameRule p.fullName = false)
    (hpres : allFieldsPresent p = true)
    (hg : gmailOk p.gmail = true)
    (hy : (isOrdinalYear p.yearLevel || isNumYear p.yearLevel) = true)
    (hid : studentIdOk p.studentId = true)
    (hfresh : ∀ r ∈ ensureDataFile seed file, r.studentId ≠ p.studentId) :
    postStudents seed file p =
      (.created p, some (ensureDataFile seed file ++ [p])) :=
  postStudents_created seed file p hpres hg hy hid hfresh

/-- Witness for the amended claim C2 at a concrete input: the digit-bearing
name is accepted and persisted next to the existing record. -/
theorem c2_witness :
    postStudents [] (some [chelsea]) digitNameRec =
      (.created digitNameRec, some (ensureDataFile [] (some [chelsea]) ++ [digitNameRec])) :=
  c2_fullname_not_enforced [] (some [chelsea]) digitNameRec (by decide)
    (by decide) (by decide) (by decide) (by decide)
    (by intro r hr; simp [ensureDataFile] at hr; simp [hr]; decide)

/-!
Claim C3.
-/

/-- Claim C3 is refuted as stated: with the bundled seed collection
non-empty, a chat request with real message content on an empty persisted
collection does not answer 400; the read reseeds the collection first, so
the handler finds data and proceeds to the upstream call. -/
theorem c3_counterexample :
    (postChat SEED_STUDENTS "k" (some []) (some "hello")).1 =
        ChatOutcome.callUpstream ∧
      (postChat SEED_STUDENTS "k" (some []) (some "hello")).1 ≠
        ChatOutcome.badRequest "No student data available." ∧
      (postChat SEED_STUDENTS "k" (some []) (some "hello")).1 ≠
        ChatOutcome.badRequest "Message is required." := by
  exact ⟨by decide, by decide, by decide⟩

/-- Claim C3 (amended): for every request with non-empty string message
content sent while the persisted collection is absent or empty, the chat
handler's read first reseeds the collection from the bundled seed; since
the bundled seed is non-empty the handler does not answer the no-data 400
but proceeds, answering 500 when no credential is configured and otherwise
reaching the upstream call. -/
theorem c3_chat_reseeds (key : String) (file : Option (List Student))
    (m : String) (hm : m ≠ "")
    (hfile : file = none ∨ file = some []) :
    postChat SEED_STUDENTS key file (some m) =
      ((if key == "" then
          ChatOutcome.serverError "LLM API key not configured on the server."
        else ChatOutcome.callUpstream), some SEED_STUDENTS) := by
  have hm' : (m == "") = false := by simpa using hm
  rcases hfile with rfl | rfl <;>
    simp [postChat, ensureDataFile, SEED_STUDENTS, hm'] <;>
    split <;> simp

/-- Witness for the amended claim C3 at a concrete input: an absent data
file, a configured key and a real message reach the upstream call and the
file now holds the seed. -/
theorem c3_witness :
    postChat SEED_STUDENTS "k" none (some "hi") =
      ((if "k" == "" then
          ChatOutcome.serverError "LLM API key not configured on the server."
        else ChatOutcome.callUpstream), some SEED_STUDENTS) :=
  c3_chat_reseeds "k" none "hi" (by decide) (Or.inl rfl)

/-!
Claim C4.
-/

/-- Claim C4 is refuted as stated: badTwoFieldsRec violates both the
studentId rule and the gmail rule; the spec's table order would name
studentId first, but the server names the Gmail field, because its check
order is the presence loop, then gmail, then yearLevel, then studentId. -/
theorem c4_counterexample :
    spec_studentIdRule badTwoFieldsRec.studentId = false ∧
      spec_gmailRule badTwoFieldsRec.gmail = false ∧
      postStudents [] (some []) badTwoFieldsRec =
        (.badRequest "Email must be a valid Gmail address.", some []) ∧
      "Email must be a valid Gmail address." ≠
        "Student ID format invalid (e.g., BP-113-00001)." ∧
      "Email must be a valid Gmail address." ≠ "Missing field: studentId" := by
  exact ⟨by decide, by decide, by decide, by decide, by decide⟩

/-- Claim C4 (amended): whenever any of the server's validation checks
fails, Create answers 400 with the message of the first failing check in
the server's own order (the presence of the seven fields in source order,
then the Gmail format, the year-level format and the student-id format)
and the persisted file is untouched, so validation never partially
applies. -/
theorem c4_first_failing_check (seed : List Student)
    (file : Option (List Student)) (p : Student) (m : String)
    (h : firstFailingMsg p = some m) :
    postStudents seed file p = (.badRequest m, file) :=
  postStudents_firstFail seed file p m h

/-- Witness for the amended claim C4 at a concrete input: for the record
violating both the studentId and the gmail rule, the first failing check
in the server's order is the Gmail format and its message is answered. -/
theorem c4_witness :
    postStudents [] (some []) badTwoFieldsRec =
      (.badRequest "Email must be a valid Gmail address.", some []) :=
  c4_first_failing_check [] (some []) badTwoFieldsRec
    "Email must be a valid Gmail address." (by decide)

/-!
Claim C5.
-/

/-- Claim C5 is refuted as stated: dupBlankGmailRec carries the studentId
of the stored record chelsea, yet Create answers 400 for its blank gmail
field, not the claimed 409: validation runs before the uniqueness check,
so a duplicate id alone does not guarantee a ConflictError. -/
theorem c5_counterexample :
    dupBlankGmailRec.studentId = chelsea.studentId ∧
      postStudents [] (some [chelsea]) dupBlankGmailRec =
        (.badRequest "Missing field: gmail", some [chelsea]) := by
  exact ⟨by decide, by decide⟩

/-- Claim C5 (amended): for every candidate record that passes the
server's format checks and whose studentId equals the studentId of a
record in the persisted collection, Create fails with ConflictError and
the persisted collection is left unchanged by the request. -/
theorem c5_duplicate_conflict (seed : List Student) (l : List Student)
    (p : Student)
    (hpres : allFieldsPresent p = true)
    (hg : gmailOk p.gmail = true)
    (hy : (isOrdinalYear p.yearLevel || isNumYear p.yearLevel) = true)
    (hid : studentIdOk p.studentId = true)
    (hdup : ∃ r ∈ l, r.studentId = p.studentId) :
    postStudents seed (some l) p =
      (.conflict "Student ID already exists.", some l) := by
  simp only [allFieldsPresent, Bool.and_eq_true, Bool.not_eq_true'] at hpres
  obtain ⟨⟨⟨⟨⟨⟨h1, h2⟩, h3⟩, h4⟩, h5⟩, h6⟩, h7⟩ := hpres
  obtain ⟨r, hrmem, hrid⟩ := hdup
  have hlne : l.isEmpty = false := by
    cases l with
    | nil => cases hrmem
    | cons a tl => rfl
  have hEnsure : ensureDataFile seed (some l) = l := by
    simp [ensureDataFile, hlne]
  have hany : l.any (fun s => s.studentId == p.studentId) = true :=
    List.any_eq_true.mpr ⟨r, hrmem, by simpa using hrid⟩
  simp [postStudents, h1, h2, h3, h4, h5, h6, h7, hg, hy, hid, hEnsure, hany]

/-- Witness for the amended claim C5 at a concrete input: re-creating the
stored example record answers the conflict and leaves the collection as it
was. -/
theorem c5_witness :
    postStudents [] (some [chelsea]) chelsea =
      (.conflict "Student ID already exists.", some [chelsea]) :=
  c5_duplicate_conflict [] [chelsea] chelsea (by decide) (by decide)
    (by decide) (by decide) ⟨chelsea, by simp, rfl⟩

/-!
Claim C6.
-/

/-- Claim C6: over the collection the store provides (the persisted
collection after the store's own seed-on-absent-or-empty step, which the
read performs first), DELETE of an absent studentId answers 404 and
leaves the collection unchanged, and DELETE of a studentId carried by
exactly one record removes exactly that record, persists the reduced
collection and returns the removed record. -/
theorem c6_delete_present_absent (seed : List Student)
    (file : Option (List Student)) (id : String) :
    ((∀ r ∈ ensureDataFile seed file, r.studentId ≠ id) →
      deleteStudent seed file id =
        (.notFound "Not found", some (ensureDataFile seed file))) ∧
    (∀ pre r post, ensureDataFile seed file = pre ++ r :: post →
      r.studentId = id → (∀ s ∈ pre ++ post, s.studentId ≠ id) →
      deleteStudent seed file id = (.ok r, some (pre ++ post))) := by
  constructor
  · intro habs
    simp only [deleteStudent]
    rw [spliceOutById_eq_none id _ habs]
  · intro pre r post hdec hr hother
    simp only [deleteStudent]
    rw [hdec, spliceOutById_first_match id pre r post
      (fun s hs => hother s (List.mem_append_left _ hs)) hr]

/-- Witness for claim C6 at concrete inputs: deleting the stored example
record returns it and keeps the other record; deleting an unknown id
answers 404 and the collection stays as read. -/
theorem c6_witness :
    deleteStudent [] (some [dana, chelsea]) "BP-113-00001" =
        (.ok chelsea, some [dana]) ∧
      deleteStudent [] (some [dana, chelsea]) "ZZ-999-99999" =
        (.notFound "Not found", some [dana, chelsea]) := by
  constructor
  · exact (c6_delete_present_absent [] (some [dana, chelsea]) "BP-113-00001").2
      [dana] chelsea [] (by decide) (by decide) (by decide)
  · exact (c6_delete_present_absent [] (some [dana, chelsea]) "ZZ-999-99999").1
      (by decide)

/-!
Claim C7.
-/

/-- Claim C7: when the persisted collection is absent or empty, List
replaces it wholesale with the bundled seed collection and returns the
seed, and a second List call returns the same collection unchanged; this
holds for every seed collection, so in particular for the bundled one. -/
theorem c7_seeding_idempotent (seed : List Student)
    (file : Option (List Student)) (hfile : file = none ∨ file = some []) :
    getStudents seed file = (seed, some seed) ∧
      getStudents seed (some seed) = (seed, some seed) := by
  constructor
  · rcases hfile with rfl | rfl <;> simp [getStudents, ensureDataFile]
  · simp [getStudents, ensureDataFile]

/-- Witness for claim C7 at a concrete input: with the data file absent,
List returns the bundled seed and stores it, and a second List returns the
same collection unchanged. -/
theorem c7_witness :
    getStudents SEED_STUDENTS none = (SEED_STUDENTS, some SEED_STUDENTS) ∧
      getStudents SEED_STUDENTS (some SEED_STUDENTS) =
        (SEED_STUDENTS, some SEED_STUDENTS) :=
  c7_seeding_idempotent SEED_STUDENTS none (Or.inl rfl)

/-!
Claim C8.
-/

/-- Claim C8 is refuted as stated: the yearLevel zero is not a bare
positive integer and not an ordinal form, yet Create accepts the record
zeroYearRec carrying it, because the server's digit test admits any
string of digits, zero included. -/
theorem c8_counterexample :
    spec_yearLevelClaimRule zeroYearRec.yearLevel = false ∧
      postStudents [] (some []) zeroYearRec =
        (.created zeroYearRec, some [zeroYearRec]) := by
  exact ⟨by decide, by decide⟩

/-- Claim C8 (amended): for every candidate whose fields are all present
and whose gmail passes the format test, Create rejects the record with
the 400 message naming the year level exactly when its yearLevel matches
neither the all-digits pattern (zero included) nor the ordinal pattern
case-insensitively. -/
theorem c8_yearlevel_rule (seed : List Student)
    (file : Option (List Student)) (p : Student)
    (hpres : allFieldsPresent p = true)
    (hg : gmailOk p.gmail = true) :
    (postStudents seed file p).1 =
        .badRequest "Year Level must be like \"1st Year\" or a number." ↔
      spec_yearLevelRule p.yearLevel = false := by
  simp only [allFieldsPresent, Bool.and_eq_true, Bool.not_eq_true'] at hpres
  obtain ⟨⟨⟨⟨⟨⟨h1, h2⟩, h3⟩, h4⟩, h5⟩, h6⟩, h7⟩ := hpres
  have hrule : spec_yearLevelRule p.yearLevel =
      (isOrdinalYear p.yearLevel || isNumYear p.yearLevel) := by
    simp [spec_yearLevelRule, Bool.or_comm]
  rw [hrule]
  by_cases hy : (isOrdinalYear p.yearLevel || isNumYear p.yearLevel) = true
  · have hrhs : ((isOrdinalYear p.yearLevel || isNumYear p.yearLevel) = false) =
        False := by simp [hy]
    rw [hrhs, iff_false]
    intro hbad
    simp only [postStudents, h1, h2, h3, h4, h5, h6, h7, hg, hy,
      Bool.not_true, Bool.false_eq_true, if_false] at hbad
    split_ifs at hbad <;> simp at hbad
  · have hy' : (isOrdinalYear p.yearLevel || isNumYear p.yearLevel) = false :=
      Bool.eq_false_iff.mpr hy
    simp [postStudents, h1, h2, h3, h4, h5, h6, h7, hg, hy']

/-- Witness for the amended claim C8 at a concrete input: the spelled-out
yearLevel of fiveYearRec matches neither pattern, so Create answers the
400 message naming the year level. -/
theorem c8_witness :
    (postStudents [] (some []) fiveYearRec).1 =
      .badRequest "Year Level must be like \"1st Year\" or a number." :=
  (c8_yearlevel_rule [] (some []) fiveYearRec (by decide) (by decide)).mpr
    (by decide)

/-!
Claim C9.
-/

/-- Claim C9: the server performs no projection or sanitization of the
request body; whenever Create accepts a candidate, the 201 response body
is the payload itself, extra properties included, and the persisted
collection is the collection as read with exactly that payload appended. -/
theorem c9_payload_verbatim (seed : List Student)
    (file : Option (List Student)) (p b : Student)
    (f' : Option (List Student))
    (h : postStudents seed file p = (.created b, f')) :
    b = p ∧ f' = some (ensureDataFile seed file ++ [p]) := by
  cases hf : firstFailingMsg p with
  | some m =>
    rw [postStudents_firstFail seed file p m hf] at h
    exact absurd h (by simp)
  | none =>
    obtain ⟨hpres, hg, hy, hid⟩ := checks_pass_of_none p hf
    by_cases hdup : (ensureDataFile seed file).any
        (fun s => s.studentId == p.studentId) = true
    · rw [postStudents_conflict seed file p hf hdup] at h
      exact absurd h (by simp)
    · have hfresh : ∀ r ∈ ensureDataFile seed file,
          r.studentId ≠ p.studentId := by
        intro r hr heq
        exact hdup (List.any_eq_true.mpr ⟨r, hr, by simpa using heq⟩)
      rw [postStudents_created seed file p hpres hg hy hid hfresh] at h
      injection h with h1 h2
      injection h1 with h1
      exact ⟨h1.symm, h2.symm⟩

/-- Witness for claim C9 at a concrete input: the accepted record with an
extra property is echoed and appended verbatim. -/
theorem c9_witness :
    extraPropsRec = extraPropsRec ∧
      some [extraPropsRec] = some (ensureDataFile [] (some []) ++ [extraPropsRec]) :=
  c9_payload_verbatim [] (some []) extraPropsRec extraPropsRec
    (some [extraPropsRec]) (by decide)

/-!
Claim C10.
-/

/-- Claim C10: a successful DELETE on a stored collection removes only the
first record in stored order whose studentId matches; all records before
it and all records after it, later matches included, are kept unchanged
and in their original relative order in the persisted collection, and the
removed record is returned. -/
theorem c10_delete_first_match (seed : List Student) (id : String)
    (pre : List Student) (r : Student) (post : List Student)
    (hpre : ∀ s ∈ pre, s.studentId ≠ id) (hr : r.studentId = id) :
    deleteStudent seed (some (pre ++ r :: post)) id =
      (.ok r, some (pre ++ post)) := by
  have hne : (pre ++ r :: post).isEmpty = false := by
    cases pre <;> rfl
  simp only [deleteStudent, ensureDataFile, hne, Bool.false_eq_true, if_false]
  rw [spliceOutById_first_match id pre r post hpre hr]

/-- Witness for claim C10 at a concrete input: with two records sharing
one studentId, DELETE removes the earlier one and keeps the later one in
place. -/
theorem c10_witness :
    deleteStudent [] (some ([dana] ++ chelsea :: [chelseaTwin])) "BP-113-00001" =
      (.ok chelsea, some ([dana] ++ [chelseaTwin])) :=
  c10_delete_first_match [] "BP-113-00001" [dana] chelsea [chelseaTwin]
    (by decide) (by decide)
